import Mathlib

set_option autoImplicit false

/-!
Shallow embedding of the job orchestration and reconciliation engine
of `backend-api` (src/app/api/v1/replicate.py, src/fastapi_app/api/routes/v1.py,
src/fastapi_app/services/replicate_service.py).

Python JSON-like values are modelled by `PyVal`; Redis (the Job Store, the
Dedup Marker store and the downstream import queue) is modelled by `Store`;
the two reconcilers (`replicate_webhook`, `get_ai_job_status`), the clip
dispatcher (`generate_video_clips`) and the generation aggregate view
(`get_generation`) are translated as pure state-passing functions.
-/

/-- A Python value as seen by the reconcilers: a string, a list, a dict
(an association list in insertion order; Python dict keys are unique),
or some other value (`other` carries its Python truthiness, e.g. a number). -/
inductive PyVal where
  | str (s : String)
  | list (xs : List PyVal)
  | dict (kvs : List (String × PyVal))
  | other (truthy : Bool)

/-- Python truthiness of a `PyVal` ("" , [] and \x7b\x7d are falsy). -/
def PyVal.truthy : PyVal → Bool
  | .str s => s ≠ ""
  | .list xs => !xs.isEmpty
  | .dict kvs => !kvs.isEmpty
  | .other t => t

/-- Truthiness of an optional Python value (`None` is falsy). -/
def optPyTruthy : Option PyVal → Bool
  | none => false
  | some v => v.truthy

/-- Truthiness of an optional string (`None` and `""` are falsy). -/
def optStrTruthy : Option String → Bool
  | none => false
  | some s => s ≠ ""

/-- Python `a or b` on optional values: `b` unless `a` is truthy. -/
def pyOrOpt (a b : Option PyVal) : Option PyVal :=
  match a with
  | some v => if v.truthy then some v else b
  | none => b

/-- Python `dict.get(k)`: first binding of `k` (dict keys are unique). -/
def dictGet (kvs : List (String × PyVal)) (k : String) : Option PyVal :=
  match kvs with
  | [] => none
  | (k', v) :: rest => if k' = k then some v else dictGet rest k

/-- Python `value.startswith("http")`, modelled over the character list so
that it evaluates definitionally. -/
def strStartsWith (s pfx : String) : Bool :=
  pfx.data.isPrefixOf s.data

/-- Python slicing `s[:n]`, modelled over the character list. -/
def strTake (s : String) (n : Nat) : String :=
  ⟨s.data.take n⟩

/-- The fixed priority list of dict keys checked by the Output Normalizer. -/
def url_keys : List String := ["url", "video", "mp4", "download_url"]

/-- First priority key of `url_keys` whose value is a string starting with
"http" (the first dict loop of `extract_result_from_output`). -/
def priorityUrl (kvs : List (String × PyVal)) : List String → Option String
  | [] => none
  | k :: ks =>
    match dictGet kvs k with
    | some (.str s) => if strStartsWith s "http" then some s else priorityUrl kvs ks
    | _ => priorityUrl kvs ks

/-- First string value in the dict starting with "http" (the second dict
loop of `extract_result_from_output`). -/
def scanUrl : List (String × PyVal) → Option String
  | [] => none
  | (_, .str s) :: rest => if strStartsWith s "http" then some s else scanUrl rest
  | _ :: rest => scanUrl rest

mutual

/-- The URL component computed by `extract_result_from_output` on a present
value: a string is itself the URL; a list yields its first element with a
truthy URL; a dict is searched by priority keys then by scanning string
values; any other value yields no URL. -/
def extractUrl : PyVal → Option String
  | .str s => some s
  | .list xs => extractUrlList xs
  | .dict kvs =>
    match priorityUrl kvs url_keys with
    | some s => some s
    | none => scanUrl kvs
  | .other _ => none

/-- The list loop of `extract_result_from_output`: recurse into each element
and keep the first truthy URL (Python `if url:`). -/
def extractUrlList : List PyVal → Option String
  | [] => none
  | x :: xs =>
    match extractUrl x with
    | some s => if s ≠ "" then some s else extractUrlList xs
    | none => extractUrlList xs

end

/-- `extract_result_from_output` (replicate.py lines 41-77): returns the
first usable result URL and the audit payload. `none` input → `(none, none)`;
a string/list/dict is preserved as the audit payload; other values → `(none, none)`. -/
def extract_result_from_output : Option PyVal → Option String × Option PyVal
  | none => (none, none)
  | some (.str s) => (some s, some (.str s))
  | some (.list xs) => (extractUrlList xs, some (.list xs))
  | some (.dict kvs) => (extractUrl (.dict kvs), some (.dict kvs))
  | some (.other _) => (none, none)

/-- A JobRecord: the `ai_job:{job_id}` dict stored in Redis. Optional fields
model dict keys that may be missing; `status` is always present (it is set
by every writer: `store_job_metadata`, the webhook merge and the poll merge). -/
structure JobRecord where
  job_id : String
  job_type : Option String := none
  prompt : Option String := none
  model : Option String := none
  status : String := "queued"
  created_at : Option String := none
  updated_at : Option String := none
  generation_type : Option String := none
  clip_id : Option String := none
  generation_id : Option String := none
  scene_id : Option String := none
  duration : Option Nat := none
  result_url : Option String := none
  output : Option PyVal := none
  error : Option String := none
  asset_id : Option String := none
  import_job_id : Option String := none

/-- A record with only `job_id` set — the `\x7b\x7d` base used by the poll
merge when no cached record exists. -/
def emptyJobRecord (jid : String) : JobRecord :=
  { job_id := jid, status := "processing" }

/-- The downstream import request produced by `enqueue_video_import` /
`enqueue_image_import` as called by the two reconcilers. -/
structure ImportRequest where
  kind : String
  url : String
  name : String
  user_id : String
  prompt : String
  model : String
  source_job_id : String
  asset_id : String
deriving DecidableEq

/-- The hard-coded destination user of both reconcilers. -/
def IMPORT_USER_ID : String := "00000000-0000-0000-0000-000000000001"

/-- The shared Redis state plus the downstream queue: job records keyed by
job_id (`ai_job:{job_id}`), the set of dedup markers (`imported:{job_id}`),
the requests successfully enqueued downstream, and a count of enqueue calls
attempted (successful or not). -/
structure Store where
  jobs : List (String × JobRecord)
  markers : List String
  queue : List ImportRequest
  attempts : Nat

/-- Look up a job record by job_id. -/
def lookupJob (jobs : List (String × JobRecord)) (jid : String) : Option JobRecord :=
  match jobs with
  | [] => none
  | (k, v) :: rest => if k = jid then some v else lookupJob rest jid

/-- Write (`setex`) a job record, replacing any existing entry for that job_id. -/
def setJob (jobs : List (String × JobRecord)) (jid : String) (rec : JobRecord) :
    List (String × JobRecord) :=
  match jobs with
  | [] => [(jid, rec)]
  | (k, v) :: rest => if k = jid then (jid, rec) :: rest else (k, v) :: setJob rest jid rec

/-- `redis_conn.exists("imported:" + jid)`. -/
def markerExists (ms : List String) (jid : String) : Bool :=
  match ms with
  | [] => false
  | m :: rest => if m = jid then true else markerExists rest jid

/-- `redis_conn.setex("imported:" + jid, 86400, "1")`. -/
def addMarker (ms : List String) (jid : String) : List String :=
  if markerExists ms jid then ms else jid :: ms

/-- A provider push payload (`ReplicateWebhookPayload`): id, status, output, error. -/
structure WebhookPayload where
  id : String
  status : String
  output : Option PyVal
  error : Option String

/-- A provider response to `replicate.predictions.get` as used by the poll
reconciler: status token, output and error. -/
structure ProviderResp where
  status : String
  output : Option PyVal
  error : Option String

/-- The status map of `get_ai_job_status` (starting/processing → processing;
terminal tokens pass through; unknown tokens pass through unchanged). -/
def poll_status_map (s : String) : String :=
  if s = "starting" then "processing"
  else if s = "processing" then "processing"
  else if s = "succeeded" then "succeeded"
  else if s = "failed" then "failed"
  else if s = "canceled" then "canceled"
  else s

/-- Membership of the terminal-status set used by `get_ai_job_status`. -/
def isTerminalStatus (s : String) : Bool :=
  s = "succeeded" || s = "failed" || s = "canceled"

/-- The staleness test of `get_ai_job_status` (lines 1864-1869): refresh when
the record is missing, its status is non-terminal, or it is succeeded without
a truthy result URL. -/
def shouldRefresh (cached : Option JobRecord) : Bool :=
  match cached with
  | none => true
  | some jd =>
    !(isTerminalStatus jd.status) || (jd.status = "succeeded" && !(optStrTruthy jd.result_url))

/-- The webhook metadata merge (replicate.py lines 2368-2386): performed only
when a record already exists; overwrites `status` with the raw payload status,
stamps `updated_at`, and fills `result_url` / `error` / `output` only when the
corresponding update value is truthy. -/
def webhookMergeRecord (jd : JobRecord) (payload : WebhookPayload)
    (result_url : Option String) (normalized_output : Option PyVal) (now : String) : JobRecord :=
  let ov := pyOrOpt normalized_output payload.output
  { jd with
    status := payload.status
    updated_at := some now
    result_url := if optStrTruthy result_url then result_url else jd.result_url
    error := if optStrTruthy payload.error then payload.error else jd.error
    output := if optPyTruthy ov then ov else jd.output }

/-- The webhook import path after the dedup `exists` check found no marker
(replicate.py lines 2284-2345): read the record; if absent do nothing; else
derive metadata (generation_type defaults to "image"), call the enqueue
(counted as an attempt), and only on a successful enqueue append the request,
set the dedup marker and store `asset_id` / `import_job_id` back on the record.
An enqueue exception (`enqueueOk = false`) is caught and leaves the rest of
the block unexecuted. -/
def webhookFireAfterCheck (st : Store) (jid url asset_id : String) (enqueueOk : Bool) : Store :=
  match lookupJob st.jobs jid with
  | none => st
  | some jd =>
    let generation_type := jd.generation_type.getD "image"
    let prompt := jd.prompt.getD ""
    let model := jd.model.getD "unknown"
    let kind := if generation_type = "video" then "video" else "image"
    let filename :=
      if generation_type = "video" then "AI_Video_" ++ strTake jid 8 ++ ".mp4"
      else "AI_Image_" ++ strTake jid 8 ++ ".png"
    let st1 := { st with attempts := st.attempts + 1 }
    if enqueueOk then
      let req : ImportRequest :=
        ⟨kind, url, filename, IMPORT_USER_ID, prompt, model, jid, asset_id⟩
      let jd' := { jd with asset_id := some asset_id, import_job_id := some ("import_" ++ jid) }
      { st1 with
        queue := st1.queue ++ [req],
        markers := addMarker st1.markers jid,
        jobs := setJob st1.jobs jid jd' }
    else st1

/-- The webhook dedup-gated import trigger (replicate.py lines 2275-2345):
an `exists` check on the marker followed, when absent, by the fire step.
The check and the fire are two separate Redis operations. -/
def webhookImportTrigger (st : Store) (jid url asset_id : String) (enqueueOk : Bool) : Store :=
  if markerExists st.markers jid then st else webhookFireAfterCheck st jid url asset_id enqueueOk

/-- `replicate_webhook` (replicate.py lines 2188-2401), state effects on the
store: extract the result URL; on a succeeded payload with a truthy URL run
the dedup-gated import trigger; then merge the payload into the record if one
exists (an unknown job_id leaves the store untouched). Returns the new store
and `true` for the 200 "ok" acknowledgment (every modelled path returns ok). -/
def replicate_webhook (st : Store) (payload : WebhookPayload)
    (enqueueOk : Bool) (asset_id now : String) : Store × Bool :=
  let ex := extract_result_from_output payload.output
  let st1 :=
    if payload.status = "succeeded" && optStrTruthy ex.1 then
      webhookImportTrigger st payload.id ((ex.1).getD "") asset_id enqueueOk
    else st
  let st2 :=
    match lookupJob st1.jobs payload.id with
    | none => st1
    | some jd =>
      { st1 with jobs := setJob st1.jobs payload.id (webhookMergeRecord jd payload ex.1 ex.2 now) }
  (st2, true)

/-- The poll merge (replicate.py lines 1894-1909): map the provider status,
extract the result URL, and write a record that spreads the cached record (or
an empty dict) under the refreshed fields; `result_url`, `output` and `error`
are set unconditionally, `prompt` / `model` and the other cached fields are kept. -/
def pollMergeRecord (cached : Option JobRecord) (jid : String) (resp : ProviderResp)
    (now : String) : JobRecord :=
  let mapped := poll_status_map resp.status
  let ex := extract_result_from_output resp.output
  { cached.getD (emptyJobRecord jid) with
    job_id := jid
    status := mapped
    result_url := ex.1
    output := pyOrOpt ex.2 resp.output
    error := resp.error
    updated_at := some now }

/-- The poll import path after the dedup `exists` check found no marker
(replicate.py lines 1936-1988): metadata comes from the in-hand `job_data`
snapshot (generation_type defaults to "video"); only video jobs are imported;
the enqueue is counted as an attempt and only on success are the request
appended, the marker set and `asset_id` / `import_job_id` stored back. -/
def pollFireAfterCheck (st : Store) (job_data : Option JobRecord)
    (jid url asset_id : String) (enqueueOk : Bool) : Store :=
  let generation_type := (job_data.bind (fun jd => jd.generation_type)).getD "video"
  let prompt := (job_data.bind (fun jd => jd.prompt)).getD ""
  let model := (job_data.bind (fun jd => jd.model)).getD "unknown"
  if generation_type = "video" then
    let st1 := { st with attempts := st.attempts + 1 }
    if enqueueOk then
      let req : ImportRequest :=
        ⟨"video", url, "AI_Video_" ++ strTake jid 8 ++ ".mp4", IMPORT_USER_ID, prompt, model,
          jid, asset_id⟩
      let st2 := { st1 with queue := st1.queue ++ [req], markers := addMarker st1.markers jid }
      match job_data with
      | some jd =>
        let jd' := { jd with asset_id := some asset_id, import_job_id := some ("import_" ++ jid) }
        { st2 with jobs := setJob st2.jobs jid jd' }
      | none => st2
    else st1
  else st

/-- The poll auto-import trigger (replicate.py lines 1925-1988): fires only
when `auto_import` is set, the mapped status is succeeded and the result URL
is truthy; the dedup `exists` check and the fire step are two separate Redis
operations. -/
def pollAutoImport (st : Store) (job_data : Option JobRecord) (jid : String)
    (mapped : String) (result_url : Option String) (auto_import enqueueOk : Bool)
    (asset_id : String) : Store :=
  if auto_import && mapped = "succeeded" && optStrTruthy result_url then
    if markerExists st.markers jid then st
    else pollFireAfterCheck st job_data jid (result_url.getD "") asset_id enqueueOk
  else st

/-- The HTTP response of `get_ai_job_status`: a 404 "Job not found" or a 200
body `(status, result_url, output, error)`. -/
inductive PollResp where
  | notFound
  | ok (status : String) (result_url : Option String) (output : Option PyVal)
      (error : Option String)

/-- The outcome of one `get_ai_job_status` call: the new store, the response,
and whether the provider was queried (`replicate.predictions.get` attempted). -/
structure PollOutcome where
  store : Store
  resp : PollResp
  contacted : Bool

/-- `get_ai_job_status` (replicate.py lines 1834-2005): read the cached
record; when stale (and an API key is configured) query the provider and merge
the normalized response back; a provider exception falls back to the cached
record (404 when none); then run the dedup-gated auto-import; finally return
`(status, result_url, output, error)`. `provider = none` models the provider
query raising. -/
def get_ai_job_status (st : Store) (jid : String) (auto_import : Bool)
    (hasApiKey : Bool) (provider : Option ProviderResp) (enqueueOk : Bool)
    (asset_id now : String) : PollOutcome :=
  let cached := lookupJob st.jobs jid
  let mapped0 := match cached with | some jd => jd.status | none => "processing"
  let url0 := cached.bind (fun jd => jd.result_url)
  let out0 := cached.bind (fun jd => jd.output)
  let err0 := cached.bind (fun jd => jd.error)
  if shouldRefresh cached then
    if !hasApiKey then ⟨st, .notFound, false⟩
    else
      match provider with
      | some resp =>
        let merged := pollMergeRecord cached jid resp now
        let st1 := { st with jobs := setJob st.jobs jid merged }
        let st2 := pollAutoImport st1 (some merged) jid merged.status merged.result_url
          auto_import enqueueOk asset_id
        ⟨st2, .ok merged.status merged.result_url merged.output merged.error, true⟩
      | none =>
        match cached with
        | some jd =>
          let st2 := pollAutoImport st (some jd) jid jd.status jd.result_url
            auto_import enqueueOk asset_id
          ⟨st2, .ok jd.status jd.result_url jd.output jd.error, true⟩
        | none => ⟨st, .notFound, true⟩
  else
    let st2 := pollAutoImport st cached jid mapped0 url0 auto_import enqueueOk asset_id
    ⟨st2, .ok mapped0 url0 out0 err0, false⟩

/-- Identifier of one of the two racing reconcilers. -/
inductive Pid where
  | w
  | p
deriving DecidableEq

/-- State of the two-process race on the dedup marker: the shared store plus,
for each process, the `exists` result it has observed (if any) and whether it
has executed its fire step. -/
structure RaceState where
  store : Store
  wSaw : Option Bool
  wFired : Bool
  pSaw : Option Bool
  pFired : Bool

/-- One atomic step of the race: a process first performs its `exists` check
(recording what it saw), then on its next turn performs the fire step unless
the check saw the marker present. The poll process uses the `job_data`
snapshot it read before the check (`snapshot`). This decomposition mirrors
the code: the check (`redis_conn.exists`) and the marker write
(`redis_conn.setex`) are separate Redis commands, not an atomic
create-if-absent. -/
def raceStep (snapshot : Option JobRecord) (jid wUrl pUrl wAsset pAsset : String)
    (s : RaceState) : Pid → RaceState
  | .w =>
    match s.wSaw with
    | none => { s with wSaw := some (markerExists s.store.markers jid) }
    | some saw =>
      if s.wFired then s
      else
        let st' := if saw then s.store else webhookFireAfterCheck s.store jid wUrl wAsset true
        { s with wFired := true, store := st' }
  | .p =>
    match s.pSaw with
    | none => { s with pSaw := some (markerExists s.store.markers jid) }
    | some saw =>
      if s.pFired then s
      else
        let st' := if saw then s.store else pollFireAfterCheck s.store snapshot jid pUrl pAsset true
        { s with pFired := true, store := st' }

/-- Run a schedule (an interleaving of the two processes' steps) from an
initial store. -/
def runRace (st0 : Store) (snapshot : Option JobRecord)
    (jid wUrl pUrl wAsset pAsset : String) (sched : List Pid) : RaceState :=
  sched.foldl (raceStep snapshot jid wUrl pUrl wAsset pAsset) ⟨st0, none, false, none, false⟩

/-- The per-clip summary returned by the dispatcher (`_process_single_clip`):
clip_id, prediction_id on success, status "queued" or "failed", the caught
error message on failure, and the scene id. -/
structure ClipResult where
  clip_id : String
  prediction_id : Option String
  status : String
  error : Option String
  scene_id : Option String
deriving DecidableEq

/-- `store_job_metadata` (replicate.py lines 80-116) as called by the
dispatcher (lines 2072-2082): the freshly created QUEUED JobRecord. -/
def dispatchJobRecord (pid : String) (prompt : String) (generation_id : String)
    (clip_id : String) (scene_id : Option String) (now : String) : JobRecord :=
  { job_id := pid
    job_type := some "ai_generation"
    prompt := some prompt
    model := some "wan-video/wan-2.5-t2v"
    status := "queued"
    created_at := some now
    generation_type := some "video"
    clip_id := some clip_id
    generation_id := some generation_id
    scene_id := scene_id
    duration := some 5 }

/-- `_process_single_clip` (replicate.py lines 2039-2099): submit one clip.
`submit index` models the provider call `replicate.predictions.create`: `.ok
pid` is a created prediction, `.error e` an exception (caught and turned into
a failed summary). On success the QUEUED JobRecord is stored before the
summary is returned. `clipUuid` models the uuid suffix of the clip id. -/
def process_single_clip (st : Store) (scenes : List (Option String))
    (submit : Nat → Except String String) (generation_id : String)
    (prompt : String) (index : Nat) (clipUuid : String) (now : String) :
    Store × ClipResult :=
  let clip_id := "clip_" ++ toString (index + 1) ++ "_" ++ clipUuid
  let scene_id := (scenes.get? index).getD none
  match submit index with
  | .ok pid =>
    let jrec := dispatchJobRecord pid prompt generation_id clip_id scene_id now
    ({ st with jobs := setJob st.jobs pid jrec }, ⟨clip_id, some pid, "queued", none, scene_id⟩)
  | .error e => (st, ⟨clip_id, none, "failed", some e, scene_id⟩)

/-- The sequential loop of `generate_video_clips` (replicate.py lines
2108-2112): each clip is awaited before the next starts; a failure of one
clip does not abort the following clips. `uuids index` supplies the uuid
suffix for clip `index`. -/
def generate_video_clips_seq (st : Store) (scenes : List (Option String))
    (submit : Nat → Except String String) (generation_id : String)
    (uuids : Nat → String) (now : String) :
    List String → Nat → Store × List ClipResult
  | [], _ => (st, [])
  | prompt :: rest, i =>
    let r := process_single_clip st scenes submit generation_id prompt i (uuids i) now
    let rs := generate_video_clips_seq r.1 scenes submit generation_id uuids now rest (i + 1)
    (rs.1, r.2 :: rs.2)

/-- `generate_video_clips` (replicate.py lines 2008-2114) in sequential mode
(`parallelize=False`), starting at index 0. -/
def generate_video_clips (st : Store) (scenes : List (Option String))
    (submit : Nat → Except String String) (generation_id : String)
    (uuids : Nat → String) (now : String) (micro_prompts : List String) :
    Store × List ClipResult :=
  generate_video_clips_seq st scenes submit generation_id uuids now micro_prompts 0

/-- A clip summary as stored in the generation metadata blob
(`video_results` entries read by `get_generation`). -/
structure ClipSummary where
  clip_id : String
  prediction_id : Option String
  status : String
  video_url : Option String
deriving DecidableEq

/-- Whether a clip is "active" for the self-healing pass of `get_generation`
(v1.py line 808): still queued or processing. -/
def isActiveClip (c : ClipSummary) : Bool :=
  c.status = "queued" || c.status = "processing"

/-- The self-heal of one active clip (v1.py lines 835-869): look its
prediction up in the Redis job store; map succeeded → completed,
failed/canceled → failed, processing → processing (other statuses leave the
clip status as is); when the status changed, write it and — if truthy — the
result URL back into the clip. -/
def selfHealClip (jobs : List (String × JobRecord)) (c : ClipSummary) : ClipSummary :=
  match c.prediction_id with
  | none => c
  | some pid =>
    match lookupJob jobs pid with
    | none => c
    | some jd =>
      let new_status :=
        if jd.status = "succeeded" then "completed"
        else if jd.status = "failed" then "failed"
        else if jd.status = "canceled" then "failed"
        else if jd.status = "processing" then "processing"
        else c.status
      let new_url := if jd.status = "succeeded" then jd.result_url else c.video_url
      if new_status ≠ c.status then
        if optStrTruthy new_url then { c with status := new_status, video_url := new_url }
        else { c with status := new_status }
      else c

/-- The aggregate view `get_generation` computes (status and percentage). -/
structure GenView where
  status : String
  percentage : Option ℚ
  clips : List ClipSummary

/-- The status/progress computation of `get_generation` (v1.py lines
775-909): the stored status is returned as is (QUEUED when the record has no
status); only when it is "processing" is progress computed — with
`total = 5` when the clip list is empty — and the self-healing pass run over
the active clips, promoting to "completed" only when, after updates were
made, every clip is completed. -/
def get_generation_view (stored : Option String) (clips : List ClipSummary)
    (jobs : List (String × JobRecord)) : GenView :=
  let status := stored.getD "queued"
  if status = "processing" then
    let total : Nat := if clips.isEmpty then 5 else clips.length
    let completed := (clips.filter (fun c => c.status = "completed")).length
    let pct : ℚ := if total > 0 then (completed : ℚ) / (total : ℚ) * 100 else 0
    let active := clips.filter isActiveClip
    let should_poll := !clips.isEmpty && !(completed = total) && !active.isEmpty
    if should_poll then
      let clips' := clips.map (fun c => if isActiveClip c then selfHealClip jobs c else c)
      let updates_made := clips' ≠ clips
      if updates_made then
        let completed' := (clips'.filter (fun c => c.status = "completed")).length
        let pct' : ℚ := if total > 0 then (completed' : ℚ) / (total : ℚ) * 100 else 0
        let status' := if completed' = total then "completed" else "processing"
        ⟨status', some pct', clips'⟩
      else ⟨"processing", some pct, clips⟩
    else ⟨"processing", some pct, clips⟩
  else ⟨status, none, clips⟩

/-- The initial aggregate status set by `create_generation` after dispatch
(v1.py lines 434-441): FAILED when the result list is nonempty and every
clip failed to start, otherwise PROCESSING. -/
def initial_generation_status (video_results : List ClipResult) : String :=
  let failed_count := (video_results.filter (fun r => r.status = "failed")).length
  if !video_results.isEmpty && failed_count = video_results.length then "failed"
  else "processing"

/-! ### Helper lemmas -/

theorem lookupJob_setJob_self (jobs : List (String × JobRecord)) (jid : String) (r : JobRecord) :
    lookupJob (setJob jobs jid r) jid = some r := by
  induction jobs with
  | nil => simp [setJob, lookupJob]
  | cons kv rest ih =>
    obtain ⟨k, v⟩ := kv
    by_cases h : k = jid
    · simp [setJob, lookupJob, h]
    · simp [setJob, lookupJob, h, ih]

theorem lookupJob_setJob_ne (jobs : List (String × JobRecord)) (jid k : String) (r : JobRecord)
    (h : k ≠ jid) : lookupJob (setJob jobs jid r) k = lookupJob jobs k := by
  induction jobs with
  | nil => simp [setJob, lookupJob, Ne.symm h]
  | cons kv rest ih =>
    obtain ⟨k', v⟩ := kv
    by_cases hk : k' = jid
    · subst hk
      simp [setJob, lookupJob, Ne.symm h]
    · simp [setJob, lookupJob, hk, ih]

theorem markerExists_addMarker_self (ms : List String) (jid : String) :
    markerExists (addMarker ms jid) jid = true := by
  unfold addMarker
  by_cases h : markerExists ms jid
  · simp [h]
  · simp [h, markerExists]

theorem selfHealClip_nil (c : ClipSummary) : selfHealClip [] c = c := by
  unfold selfHealClip
  cases c.prediction_id <;> simp [lookupJob]

/-! ### Concrete fixtures shared by the claim theorems -/

/-- The `\x7b"nested": ["no-match", "http://x"]\x7d` provider output of the
spec's test vector. -/
def nestedOutput : PyVal := .dict [("nested", .list [.str "no-match", .str "http://x"])]

/-- A succeeded video JobRecord with a result URL. -/
def videoRec : JobRecord :=
  { job_id := "j1", prompt := some "p", model := some "m", status := "succeeded",
    generation_type := some "video", result_url := some "http://x" }

/-- A store holding only `videoRec`, with no marker and an empty queue. -/
def videoStore : Store := ⟨[("j1", videoRec)], [], [], 0⟩

/-- The same record with `generation_type = "image"`. -/
def imageRec : JobRecord := { videoRec with generation_type := some "image" }

/-- A store holding only `imageRec`. -/
def imageStore : Store := ⟨[("j1", imageRec)], [], [], 0⟩

/-- The empty store. -/
def emptyStore : Store := ⟨[], [], [], 0⟩

/-- A succeeded webhook payload for job "j1" with output "http://x". -/
def successPayload : WebhookPayload := ⟨"j1", "succeeded", some (.str "http://x"), none⟩

/-! ### Claim theorems -/

/-- C3 (counterexample): for the provider output
`\x7b"nested": ["no-match", "http://x"]\x7d` the Output Normalizer does NOT
return "http://x" — the dict branch only inspects string-valued fields and
never recurses into a list sitting under a dict key, so it returns no URL
(while preserving the object). -/
theorem C3_counterexample :
    (extract_result_from_output (some nestedOutput)).1 ≠ some "http://x"
    ∧ extract_result_from_output (some nestedOutput) = (none, some nestedOutput) :=
  ⟨by decide, rfl⟩

/-- C3 (amended): for outputs shaped `"http://x"`, `["http://x"]`,
`\x7b"video":"http://x"\x7d` and `\x7b"other":"http://x"\x7d` the Output
Normalizer returns "http://x" and the original value as audit payload; for
`\x7b"nested":["no-match","http://x"]\x7d` it returns NO url (lists nested
under dict keys are not recursed into) while preserving the object; for
`\x7b"k":"not-a-url"\x7d` it returns no URL but preserves the object; for an
absent output it returns (none, none). -/
theorem C3_extract_result_shapes :
    extract_result_from_output (some (.str "http://x")) = (some "http://x", some (.str "http://x"))
    ∧ extract_result_from_output (some (.list [.str "http://x"]))
        = (some "http://x", some (.list [.str "http://x"]))
    ∧ extract_result_from_output (some (.dict [("video", .str "http://x")]))
        = (some "http://x", some (.dict [("video", .str "http://x")]))
    ∧ extract_result_from_output (some (.dict [("other", .str "http://x")]))
        = (some "http://x", some (.dict [("other", .str "http://x")]))
    ∧ extract_result_from_output (some nestedOutput) = (none, some nestedOutput)
    ∧ extract_result_from_output (some (.dict [("k", .str "not-a-url")]))
        = (none, some (.dict [("k", .str "not-a-url")]))
    ∧ extract_result_from_output none = (none, none) :=
  ⟨rfl, rfl, rfl, rfl, rfl, rfl, rfl⟩

/-- C9: both Job Store updates are field-level merges: the webhook merge and
the poll merge keep every field they do not explicitly update — in
particular `prompt` and `model` set at creation, as well as the identity and
grouping fields — so an update never wholesale-overwrites the record. -/
theorem C9_merge_preserves_fields (jd : JobRecord) (payload : WebhookPayload)
    (rurl : Option String) (nout : Option PyVal) (jid : String) (resp : ProviderResp)
    (now : String) :
    ((webhookMergeRecord jd payload rurl nout now).prompt = jd.prompt
      ∧ (webhookMergeRecord jd payload rurl nout now).model = jd.model
      ∧ (webhookMergeRecord jd payload rurl nout now).job_id = jd.job_id
      ∧ (webhookMergeRecord jd payload rurl nout now).job_type = jd.job_type
      ∧ (webhookMergeRecord jd payload rurl nout now).generation_type = jd.generation_type
      ∧ (webhookMergeRecord jd payload rurl nout now).clip_id = jd.clip_id
      ∧ (webhookMergeRecord jd payload rurl nout now).generation_id = jd.generation_id
      ∧ (webhookMergeRecord jd payload rurl nout now).created_at = jd.created_at)
    ∧ ((pollMergeRecord (some jd) jid resp now).prompt = jd.prompt
      ∧ (pollMergeRecord (some jd) jid resp now).model = jd.model
      ∧ (pollMergeRecord (some jd) jid resp now).generation_type = jd.generation_type
      ∧ (pollMergeRecord (some jd) jid resp now).clip_id = jd.clip_id
      ∧ (pollMergeRecord (some jd) jid resp now).generation_id = jd.generation_id
      ∧ (pollMergeRecord (some jd) jid resp now).created_at = jd.created_at) := by
  exact ⟨⟨rfl, rfl, rfl, rfl, rfl, rfl, rfl, rfl⟩, ⟨rfl, rfl, rfl, rfl, rfl, rfl⟩⟩

/-- The poll auto-import trigger never changes the `status` of the record it
holds: it only ever writes back the snapshot record with `asset_id` /
`import_job_id` added. -/
theorem pollAutoImport_status (st : Store) (jd : JobRecord) (jid mapped : String)
    (rurl : Option String) (auto enq : Bool) (asset : String)
    (hcache : lookupJob st.jobs jid = some jd) :
    (lookupJob (pollAutoImport st (some jd) jid mapped rurl auto enq asset).jobs jid).map
      (fun r => r.status) = some jd.status := by
  unfold pollAutoImport pollFireAfterCheck
  repeat' split
  all_goals simp_all [lookupJob_setJob_self, hcache]
  all_goals (split <;> simp_all [lookupJob_setJob_self, hcache])

/-- C2 (counterexample): a JobRecord in the terminal status "succeeded"
does NOT keep its status under a webhook update carrying a different status:
the webhook merge overwrites the stored status with the payload status
("canceled" here). -/
theorem C2_counterexample :
    videoRec.status = "succeeded"
    ∧ (lookupJob (replicate_webhook videoStore ⟨"j1", "canceled", none, none⟩ true "a" "t").1.jobs
        "j1").map (fun r => r.status) = some "canceled" :=
  ⟨rfl, rfl⟩

/-- C2 (amended): the Poll Reconciler leaves a terminal record's status
unchanged when it is fresh (terminal with its required result URL): it skips
the provider refresh and the stored status survives. The webhook merge
however overwrites `status` unconditionally with the payload status, so
terminal states are not absorbing on the webhook path; `result_url` and
`error` are filled in when previously absent and the update carries a truthy
value. -/
theorem C2_terminal_status_behavior (st : Store) (jid now asset : String) (jd : JobRecord)
    (payload : WebhookPayload) (rurl : Option String) (nout : Option PyVal)
    (auto enq : Bool) (provider : Option ProviderResp)
    (hcache : lookupJob st.jobs jid = some jd)
    (hfresh : shouldRefresh (some jd) = false) :
    (webhookMergeRecord jd payload rurl nout now).status = payload.status
    ∧ (jd.result_url = none → (webhookMergeRecord jd payload rurl nout now).result_url
        = (if optStrTruthy rurl then rurl else none))
    ∧ (jd.error = none → (webhookMergeRecord jd payload rurl nout now).error
        = (if optStrTruthy payload.error then payload.error else none))
    ∧ (get_ai_job_status st jid auto true provider enq asset now).contacted = false
    ∧ (lookupJob (get_ai_job_status st jid auto true provider enq asset now).store.jobs jid).map
        (fun r => r.status) = some jd.status := by
  refine ⟨rfl, ?_, ?_, ?_, ?_⟩
  · intro h
    cases hh : optStrTruthy rurl <;> simp [webhookMergeRecord, hh, h]
  · intro h
    cases hh : optStrTruthy payload.error <;> simp [webhookMergeRecord, hh, h]
  · simp [get_ai_job_status, hcache, hfresh]
  · simp only [get_ai_job_status]
    rw [hcache, hfresh]
    simpa using pollAutoImport_status st jd jid jd.status jd.result_url auto enq asset hcache

/-- C2 (witness for the amended theorem): concrete instance — a succeeded
record with a result URL is fresh, and a poll call leaves its status
"succeeded". -/
theorem C2_terminal_witness :
    lookupJob videoStore.jobs "j1" = some videoRec
    ∧ shouldRefresh (some videoRec) = false
    ∧ (lookupJob (get_ai_job_status videoStore "j1" false true none true "a" "t").store.jobs
        "j1").map (fun r => r.status) = some "succeeded" := by
  refine ⟨rfl, rfl, ?_⟩
  exact (C2_terminal_status_behavior videoStore "j1" "t" "a" videoRec
    ⟨"j1", "canceled", none, none⟩ none none false true none rfl rfl).2.2.2.2

/-- C5 (counterexample): a webhook for an unknown job_id is acknowledged
with an ok response but does NOT create a JobRecord for that job_id — the
metadata merge is skipped when no record exists, so the update is dropped. -/
theorem C5_counterexample :
    (replicate_webhook emptyStore ⟨"jX", "succeeded", some (.str "http://x"), none⟩
      true "a" "t").2 = true
    ∧ lookupJob (replicate_webhook emptyStore
        ⟨"jX", "succeeded", some (.str "http://x"), none⟩ true "a" "t").1.jobs "jX" = none :=
  ⟨rfl, rfl⟩

/-- C5 (amended): a webhook for an unknown job_id does not crash and returns
a success acknowledgment, but it creates no JobRecord and has no effect at
all on the store: the metadata update and the import trigger are both
silently dropped. -/
theorem C5_unknown_job_dropped (st : Store) (payload : WebhookPayload) (enq : Bool)
    (asset now : String) (h : lookupJob st.jobs payload.id = none) :
    replicate_webhook st payload enq asset now = (st, true) := by
  unfold replicate_webhook webhookImportTrigger webhookFireAfterCheck
  simp [h]

/-- C5 (witness for the amended theorem): concrete instance on the empty
store. -/
theorem C5_unknown_job_witness :
    lookupJob emptyStore.jobs "jY" = none
    ∧ replicate_webhook emptyStore ⟨"jY", "succeeded", some (.str "http://x"), none⟩
        true "a" "t" = (emptyStore, true) :=
  ⟨rfl, C5_unknown_job_dropped emptyStore ⟨"jY", "succeeded", some (.str "http://x"), none⟩
    true "a" "t" rfl⟩

/-- The poll auto-import trigger keeps every reconciled field of the record
it holds: it only ever adds `asset_id` / `import_job_id`. -/
theorem pollAutoImport_record (st : Store) (jd : JobRecord) (jid mapped : String)
    (rurl : Option String) (auto enq : Bool) (asset : String)
    (hcache : lookupJob st.jobs jid = some jd) :
    ∃ r, lookupJob (pollAutoImport st (some jd) jid mapped rurl auto enq asset).jobs jid = some r
      ∧ r.status = jd.status ∧ r.result_url = jd.result_url ∧ r.output = jd.output
      ∧ r.error = jd.error ∧ r.prompt = jd.prompt ∧ r.model = jd.model := by
  unfold pollAutoImport pollFireAfterCheck
  repeat' split
  all_goals simp_all [lookupJob_setJob_self, hcache]
  all_goals (split <;> simp_all [lookupJob_setJob_self, hcache])

/-- C7: the Poll Reconciler contacts the provider if and only if the cached
record is stale (missing, non-terminal, or succeeded without a result URL);
a fresh terminal record is returned from the cache without provider contact;
and after a provider refresh the normalized response (mapped status,
extracted result URL, output, error) is merged back into the Job Store. -/
theorem C7_poll_staleness (st : Store) (jid : String) (auto enq : Bool)
    (provider : Option ProviderResp) (asset now : String) :
    (get_ai_job_status st jid auto true provider enq asset now).contacted
      = shouldRefresh (lookupJob st.jobs jid)
    ∧ (∀ jd, lookupJob st.jobs jid = some jd → shouldRefresh (some jd) = false →
        (get_ai_job_status st jid auto true provider enq asset now).resp
          = .ok jd.status jd.result_url jd.output jd.error)
    ∧ (∀ resp, provider = some resp → shouldRefresh (lookupJob st.jobs jid) = true →
        ∃ r, lookupJob (get_ai_job_status st jid auto true provider enq asset now).store.jobs jid
            = some r
          ∧ r.status = poll_status_map resp.status
          ∧ r.result_url = (extract_result_from_output resp.output).1
          ∧ r.output = pyOrOpt (extract_result_from_output resp.output).2 resp.output
          ∧ r.error = resp.error) := by
  refine ⟨?_, ?_, ?_⟩
  · unfold get_ai_job_status
    cases h : shouldRefresh (lookupJob st.jobs jid)
    · simp [h]
    · cases provider with
      | some resp => simp [h]
      | none =>
        cases hc : lookupJob st.jobs jid with
        | none => simp [hc, shouldRefresh]
        | some jd =>
          rw [hc] at h
          simp [hc, h]
  · intro jd hjd hf
    unfold get_ai_job_status
    simp [hjd, hf]
  · intro resp hp hs
    subst hp
    unfold get_ai_job_status
    simp only [hs, if_true]
    obtain ⟨r, hr, h1, h2, h3, h4, h5, h6⟩ := pollAutoImport_record
      { st with jobs := setJob st.jobs jid (pollMergeRecord (lookupJob st.jobs jid) jid resp now) }
      (pollMergeRecord (lookupJob st.jobs jid) jid resp now) jid
      (pollMergeRecord (lookupJob st.jobs jid) jid resp now).status
      (pollMergeRecord (lookupJob st.jobs jid) jid resp now).result_url auto enq asset
      (lookupJob_setJob_self st.jobs jid (pollMergeRecord (lookupJob st.jobs jid) jid resp now))
    exact ⟨r, hr, h1, h2, h3, h4⟩

/-- C7 (witness): concrete instances — a fresh succeeded record is answered
from cache with no provider contact; a missing record triggers a provider
query whose normalized response is stored. -/
theorem C7_poll_staleness_witness :
    shouldRefresh (lookupJob videoStore.jobs "j1") = false
    ∧ (get_ai_job_status videoStore "j1" false true none true "a" "t").contacted = false
    ∧ (get_ai_job_status videoStore "j1" false true none true "a" "t").resp
        = .ok "succeeded" (some "http://x") none none
    ∧ shouldRefresh (lookupJob emptyStore.jobs "j2") = true
    ∧ (∃ r, lookupJob (get_ai_job_status emptyStore "j2" false true
          (some ⟨"succeeded", some (.str "http://y"), none⟩) true "a" "t").store.jobs "j2" = some r
        ∧ r.status = "succeeded" ∧ r.result_url = some "http://y") := by
  have h1 := C7_poll_staleness videoStore "j1" false true none "a" "t"
  have h2 := C7_poll_staleness emptyStore "j2" false true
    (some ⟨"succeeded", some (.str "http://y"), none⟩) "a" "t"
  refine ⟨rfl, h1.1.trans rfl, h1.2.1 videoRec rfl rfl, rfl, ?_⟩
  obtain ⟨r, hr, hs, hu, _⟩ := h2.2.2 ⟨"succeeded", some (.str "http://y"), none⟩ rfl rfl
  exact ⟨r, hr, hs, hu⟩

/-- C6 (counterexample): with identical JobRecord metadata and dedup state,
the two import triggers do NOT always make the same enqueue-or-skip
decision: for a succeeded job whose record carries
`generation_type = "image"`, the webhook trigger enqueues an import while
the poll trigger (which only imports video jobs) skips. -/
theorem C6_counterexample :
    (webhookImportTrigger imageStore "j1" "http://x" "a" true).queue.length = 1
    ∧ (pollAutoImport imageStore (some imageRec) "j1" "succeeded" (some "http://x")
        true true "a").queue.length = 0
    ∧ (webhookImportTrigger imageStore "j1" "http://x" "a" true).queue.length
      ≠ (pollAutoImport imageStore (some imageRec) "j1" "succeeded" (some "http://x")
        true true "a").queue.length :=
  ⟨rfl, rfl, by decide⟩

/-- C6 (amended): for succeeded jobs whose JobRecord exists and carries
`generation_type = "video"`, the two reconcilers' import triggers are
extensionally identical: given the same store, result URL and generated
asset id they make the same enqueue-or-skip decision and produce the same
downstream import request; the paths differ only for non-video records
(webhook enqueues an image import, poll skips) and for missing records
(webhook skips, poll would enqueue with video defaults). -/
theorem C6_video_trigger_equivalence (st : Store) (jid url asset : String) (jrec : JobRecord)
    (enq : Bool) (hcache : lookupJob st.jobs jid = some jrec)
    (hvideo : jrec.generation_type = some "video") (hurl : url ≠ "") :
    webhookImportTrigger st jid url asset enq
      = pollAutoImport st (some jrec) jid "succeeded" (some url) true enq asset := by
  have ht : optStrTruthy (some url) = true := by simp [optStrTruthy, hurl]
  unfold webhookImportTrigger pollAutoImport webhookFireAfterCheck pollFireAfterCheck
  simp only [hcache, hvideo, ht, Option.bind_some, Option.getD_some]
  split <;> simp_all

/-- C6 (witness for the amended theorem): concrete instance on the
succeeded video record. -/
theorem C6_video_trigger_witness :
    lookupJob videoStore.jobs "j1" = some videoRec
    ∧ videoRec.generation_type = some "video"
    ∧ webhookImportTrigger videoStore "j1" "http://x" "a" true
        = pollAutoImport videoStore (some videoRec) "j1" "succeeded" (some "http://x")
            true true "a" :=
  ⟨rfl, rfl, C6_video_trigger_equivalence videoStore "j1" "http://x" "a" videoRec true rfl rfl
    (by decide)⟩

/-- C8 (counterexample): when the downstream enqueue fails on the first
success event, the SUCCEEDED status is kept, but the Dedup Marker was never
acquired (it is written only after a successful enqueue), so a retry of the
same success event performs a second import attempt (attempts goes 1 → 2 and
the retry enqueues). -/
theorem C8_counterexample :
    ((replicate_webhook videoStore successPayload false "a" "t").1).attempts = 1
    ∧ ((replicate_webhook videoStore successPayload false "a" "t").1).queue.length = 0
    ∧ markerExists ((replicate_webhook videoStore successPayload false "a" "t").1).markers
        "j1" = false
    ∧ (lookupJob ((replicate_webhook videoStore successPayload false "a" "t").1).jobs "j1").map
        (fun r => r.status) = some "succeeded"
    ∧ ((replicate_webhook ((replicate_webhook videoStore successPayload false "a" "t").1)
        successPayload true "b" "t").1).attempts = 2
    ∧ ((replicate_webhook ((replicate_webhook videoStore successPayload false "a" "t").1)
        successPayload true "b" "t").1).queue.length = 1 :=
  ⟨rfl, rfl, rfl, rfl, rfl, rfl⟩

/-- C8 (amended): when the downstream import enqueue fails after a first
observed success, the failure does not revert the job's SUCCEEDED status and
nothing is rolled back — but the Dedup Marker is only written after a
successful enqueue, so after the failure the marker is still absent and a
retry of the same success event attempts the import again (the marker then
prevents duplicates only once an enqueue has succeeded). -/
theorem C8_enqueue_failure_behavior (st : Store) (payload : WebhookPayload)
    (asset now : String) (jrec : JobRecord) (url : String)
    (hstatus : payload.status = "succeeded")
    (hurl : (extract_result_from_output payload.output).1 = some url) (hne : url ≠ "")
    (hcache : lookupJob st.jobs payload.id = some jrec)
    (hmk : markerExists st.markers payload.id = false) :
    ((replicate_webhook st payload false asset now).1).queue = st.queue
    ∧ ((replicate_webhook st payload false asset now).1).attempts = st.attempts + 1
    ∧ markerExists ((replicate_webhook st payload false asset now).1).markers
        payload.id = false
    ∧ (lookupJob ((replicate_webhook st payload false asset now).1).jobs payload.id).map
        (fun r => r.status) = some "succeeded" := by
  have ht : optStrTruthy (extract_result_from_output payload.output).1 = true := by
    simp [hurl, optStrTruthy, hne]
  unfold replicate_webhook webhookImportTrigger webhookFireAfterCheck
  simp [hstatus, ht, hmk, hcache, lookupJob_setJob_self, webhookMergeRecord]

/-- C8 (witness for the amended theorem): concrete instance on the
succeeded video record with a failing enqueue. -/
theorem C8_enqueue_failure_witness :
    lookupJob videoStore.jobs "j1" = some videoRec
    ∧ markerExists videoStore.markers "j1" = false
    ∧ ((replicate_webhook videoStore successPayload false "a" "t").1).queue = videoStore.queue
    ∧ markerExists ((replicate_webhook videoStore successPayload false "a" "t").1).markers
        "j1" = false := by
  have h := C8_enqueue_failure_behavior videoStore successPayload "a" "t" videoRec "http://x"
    rfl rfl (by decide) rfl rfl
  exact ⟨rfl, rfl, h.1, h.2.2.1⟩

/-- C1 (counterexample): the Dedup Marker acquisition is an `exists` check
followed by a separate `setex`, not an atomic create-if-absent: the
interleaving in which both reconcilers run their `exists` check before
either fires makes BOTH observe the marker absent and BOTH enqueue — two
downstream imports for one succeeded job, not exactly one. -/
theorem C1_counterexample :
    (runRace videoStore (some videoRec) "j1" "http://x" "http://x" "a1" "a2"
      [.w, .p, .w, .p]).store.queue.length = 2 :=
  rfl

/-- C1 (amended): the dedup gate is a separate read-then-write, so atomicity
holds only when the two reconcilers do not interleave: in either serial
order (one completes its check and fire before the other starts), exactly
one downstream import is enqueued; an interleaved schedule can enqueue two. -/
theorem C1_serial_single_enqueue (st : Store) (jid wUrl pUrl a1 a2 : String)
    (jrec : JobRecord) (hcache : lookupJob st.jobs jid = some jrec)
    (hvideo : jrec.generation_type = some "video")
    (hmk : markerExists st.markers jid = false) :
    (runRace st (some jrec) jid wUrl pUrl a1 a2 [.w, .w, .p, .p]).store.queue.length
        = st.queue.length + 1
    ∧ (runRace st (some jrec) jid wUrl pUrl a1 a2 [.p, .p, .w, .w]).store.queue.length
        = st.queue.length + 1 := by
  constructor
  · simp [runRace, raceStep, hmk, hcache, hvideo, webhookFireAfterCheck,
      markerExists_addMarker_self]
  · simp [runRace, raceStep, hmk, hcache, hvideo, pollFireAfterCheck,
      markerExists_addMarker_self]

/-- C1 (witness for the amended theorem): concrete serial runs on the
succeeded video record enqueue exactly once. -/
theorem C1_serial_witness :
    lookupJob videoStore.jobs "j1" = some videoRec
    ∧ markerExists videoStore.markers "j1" = false
    ∧ (runRace videoStore (some videoRec) "j1" "http://x" "http://x" "a1" "a2"
        [.w, .w, .p, .p]).store.queue.length = 1 := by
  have h := C1_serial_single_enqueue videoStore "j1" "http://x" "http://x" "a1" "a2"
    videoRec rfl rfl rfl
  exact ⟨rfl, rfl, h.1⟩

/-- Five clip summaries, all failed. -/
def fiveFailedClips : List ClipSummary :=
  [⟨"c1", some "p1", "failed", none⟩, ⟨"c2", some "p2", "failed", none⟩,
   ⟨"c3", some "p3", "failed", none⟩, ⟨"c4", some "p4", "failed", none⟩,
   ⟨"c5", some "p5", "failed", none⟩]

/-- Five clip summaries: three completed, two failed. -/
def clips60 : List ClipSummary :=
  [⟨"c1", some "p1", "completed", none⟩, ⟨"c2", some "p2", "completed", none⟩,
   ⟨"c3", some "p3", "completed", none⟩, ⟨"c4", some "p4", "failed", none⟩,
   ⟨"c5", some "p5", "failed", none⟩]

/-- C4 (counterexample): the aggregate status is NOT the claimed pure
function of the clip summaries: a generation stored as PROCESSING whose five
clips have all failed is still reported PROCESSING (with 0%), not FAILED —
`get_generation` never recomputes FAILED from the clip summaries. -/
theorem C4_counterexample :
    (get_generation_view (some "processing") fiveFailedClips []).status = "processing"
    ∧ (get_generation_view (some "processing") fiveFailedClips []).status ≠ "failed"
    ∧ (get_generation_view (some "processing") fiveFailedClips []).percentage = some 0 := by
  refine ⟨rfl, by decide, ?_⟩
  show some ((0 : ℚ) / 5 * 100) = some 0
  norm_num

/-- C4 (amended): the aggregate status is the STORED status, not a pure
recomputation from clip summaries: any stored status other than PROCESSING
is returned unchanged (QUEUED when the record has no status, in particular
for a freshly created generation with 0 clips); when the stored status is
PROCESSING and no self-heal update applies, the percentage equals
completed / total * 100 with total = clip count (5 when the clip list is
empty); an all-failed clip set does not yield FAILED at read time — FAILED
arises only at dispatch time, when every submission failed to start. -/
theorem C4_aggregate_behavior :
    (∀ s : String, ∀ clips : List ClipSummary, ∀ jobs : List (String × JobRecord),
      s ≠ "processing" → (get_generation_view (some s) clips jobs).status = s)
    ∧ (∀ clips : List ClipSummary, ∀ jobs : List (String × JobRecord),
        (get_generation_view none clips jobs).status = "queued")
    ∧ (∀ clips : List ClipSummary,
        (get_generation_view (some "processing") clips []).status = "processing"
        ∧ (get_generation_view (some "processing") clips []).percentage
          = some (((clips.filter (fun c => c.status = "completed")).length : ℚ)
              / (if clips.isEmpty then (5 : ℚ) else (clips.length : ℚ)) * 100))
    ∧ (∀ results : List ClipResult, results.isEmpty = false →
        (∀ r ∈ results, r.status = "failed") → initial_generation_status results = "failed") := by
  refine ⟨?_, ?_, ?_, ?_⟩
  · intro s clips jobs h
    simp [get_generation_view, h]
  · intro clips jobs
    simp [get_generation_view]
  · intro clips
    have hmap : clips.map (fun c => if isActiveClip c then selfHealClip [] c else c) = clips := by
      simp [selfHealClip_nil]
    unfold get_generation_view
    cases he : clips.isEmpty with
    | true =>
      have : clips = [] := List.isEmpty_iff.mp he
      subst this
      norm_num
    | false =>
      have hlen : 0 < clips.length := by
        cases clips with
        | nil => simp at he
        | cons a l => simp
      simp [hmap, he, hlen]
  · intro results hne hall
    have hfil : results.filter (fun r => r.status = "failed") = results := by
      apply List.filter_eq_self.mpr
      intro a ha
      simp [hall a ha]
    simp [initial_generation_status, hfil, hne]

/-- C4 (witness for the amended theorem): concrete instances — a stored
COMPLETED status is returned as is; no stored status reads as QUEUED; a
PROCESSING generation with 3 of 5 clips completed reads 60%; a wholly failed
dispatch sets FAILED. -/
theorem C4_aggregate_witness :
    (get_generation_view (some "completed") fiveFailedClips []).status = "completed"
    ∧ (get_generation_view none ([] : List ClipSummary) []).status = "queued"
    ∧ (get_generation_view (some "processing") clips60 []).percentage = some 60
    ∧ initial_generation_status
        [⟨"c1", none, "failed", some "e", none⟩, ⟨"c2", none, "failed", some "e", none⟩]
        = "failed" := by
  obtain ⟨h1, h2, h3, h4⟩ := C4_aggregate_behavior
  refine ⟨h1 "completed" fiveFailedClips [] (by decide), h2 [] [], ?_, ?_⟩
  · have h60 := (h3 clips60).2
    rw [h60]
    have hf : (clips60.filter (fun c => c.status = "completed")).length = 3 := by decide
    have hee : clips60.isEmpty = false := rfl
    have hl : clips60.length = 5 := rfl
    rw [hf, hee, hl]
    norm_num
  · exact h4 _ (by decide) (by decide)

/-- The Redis value stored by `ReplicateService._store_prediction_mapping`
(replicate_service.py lines 118-130) under the `prediction_mapping:{id}`
key: generation/clip/scene identifiers for the webhook — NOT an `ai_job:`
JobRecord, and carrying no status. -/
structure PredictionMapping where
  generation_id : String
  clip_id : String
  scene_id : String
deriving DecidableEq

/-- Write (`setex`) a prediction mapping, replacing any existing entry. -/
def setMapping (ms : List (String × PredictionMapping)) (pid : String)
    (m : PredictionMapping) : List (String × PredictionMapping) :=
  match ms with
  | [] => [(pid, m)]
  | (k, v) :: rest => if k = pid then (pid, m) :: rest else (k, v) :: setMapping rest pid m

/-- Look up a prediction mapping by prediction id. -/
def lookupMapping (ms : List (String × PredictionMapping)) (pid : String) :
    Option PredictionMapping :=
  match ms with
  | [] => none
  | (k, v) :: rest => if k = pid then some v else lookupMapping rest pid

theorem lookupMapping_setMapping_self (ms : List (String × PredictionMapping)) (pid : String)
    (m : PredictionMapping) : lookupMapping (setMapping ms pid m) pid = some m := by
  induction ms with
  | nil => simp [setMapping, lookupMapping]
  | cons kv rest ih =>
    obtain ⟨k, v⟩ := kv
    by_cases h : k = pid
    · simp [setMapping, lookupMapping, h]
    · simp [setMapping, lookupMapping, h, ih]

theorem lookupMapping_setMapping_ne (ms : List (String × PredictionMapping)) (pid k : String)
    (m : PredictionMapping) (h : k ≠ pid) :
    lookupMapping (setMapping ms pid m) k = lookupMapping ms k := by
  induction ms with
  | nil => simp [setMapping, lookupMapping, Ne.symm h]
  | cons kv rest ih =>
    obtain ⟨k2, v⟩ := kv
    by_cases hk : k2 = pid
    · subst hk
      simp [setMapping, lookupMapping, Ne.symm h]
    · simp [setMapping, lookupMapping, hk, ih]

/-- `ReplicateService._process_single_clip` (replicate_service.py lines
54-106): the same summary shape and per-clip failure isolation as the legacy
dispatcher, but on a successful submission it stores only the prediction
mapping (line 89) — it writes NO record into the `ai_job:` keyspace, so no
QUEUED JobRecord is created. -/
def service_process_single_clip (jobs : List (String × JobRecord))
    (maps : List (String × PredictionMapping)) (scenes : List (Option String))
    (submit : Nat → Except String String) (generation_id : String)
    (prompt : String) (index : Nat) (clipUuid : String) :
    (List (String × JobRecord) × List (String × PredictionMapping)) × ClipResult :=
  let clip_id := "clip_" ++ toString (index + 1) ++ "_" ++ clipUuid
  let scene_id := (scenes.get? index).getD none
  match submit index with
  | .ok pid =>
    let m : PredictionMapping := ⟨generation_id, clip_id, scene_id.getD ""⟩
    ((jobs, setMapping maps pid m), ⟨clip_id, some pid, "queued", none, scene_id⟩)
  | .error e => ((jobs, maps), ⟨clip_id, none, "failed", some e, scene_id⟩)

/-- The sequential loop of `ReplicateService.generate_video_clips`
(replicate_service.py lines 112-114). -/
def service_generate_video_clips_seq (jobs : List (String × JobRecord))
    (maps : List (String × PredictionMapping)) (scenes : List (Option String))
    (submit : Nat → Except String String) (generation_id : String)
    (uuids : Nat → String) :
    List String → Nat →
      (List (String × JobRecord) × List (String × PredictionMapping)) × List ClipResult
  | [], _ => ((jobs, maps), [])
  | prompt :: rest, i =>
    let r := service_process_single_clip jobs maps scenes submit generation_id prompt i (uuids i)
    let rs := service_generate_video_clips_seq r.1.1 r.1.2 scenes submit generation_id uuids
      rest (i + 1)
    (rs.1, r.2 :: rs.2)

/-- `ReplicateService.generate_video_clips` (replicate_service.py lines
29-116) in sequential mode, starting at index 0 — the dispatcher actually
invoked by `create_generation` (v1.py line 415). -/
def service_generate_video_clips (jobs : List (String × JobRecord))
    (maps : List (String × PredictionMapping)) (scenes : List (Option String))
    (submit : Nat → Except String String) (generation_id : String)
    (uuids : Nat → String) (micro_prompts : List String) :
    (List (String × JobRecord) × List (String × PredictionMapping)) × List ClipResult :=
  service_generate_video_clips_seq jobs maps scenes submit generation_id uuids micro_prompts 0

/-- A concrete provider-submission valuation: clip 0 and 2 succeed with
prediction ids "pred0" / "pred2", clip 1 throws "boom". -/
def submitW : Nat → Except String String
  | 0 => .ok "pred0"
  | 1 => .error "boom"
  | _ => .ok "pred2"

/-- C10 (counterexample): the dispatcher `create_generation` actually calls
(`ReplicateService.generate_video_clips`) reports [queued, failed, queued]
but writes NO QUEUED JobRecord for its successful submissions: the `ai_job:`
keyspace is left untouched (only a `prediction_mapping:` entry without a
status is stored), so "each successful submission writes a QUEUED JobRecord
before the dispatcher returns" fails on that cited source. -/
theorem C10_counterexample :
    (service_generate_video_clips [] [] [] submitW "g" (fun i => "u" ++ toString i)
      ["a", "b", "c"]).2.map (fun c => c.status) = ["queued", "failed", "queued"]
    ∧ (service_generate_video_clips [] [] [] submitW "g" (fun i => "u" ++ toString i)
        ["a", "b", "c"]).1.1 = []
    ∧ lookupJob (service_generate_video_clips [] [] [] submitW "g"
        (fun i => "u" ++ toString i) ["a", "b", "c"]).1.1 "pred0" = none
    ∧ (lookupMapping (service_generate_video_clips [] [] [] submitW "g"
        (fun i => "u" ++ toString i) ["a", "b", "c"]).1.2 "pred0").isSome = true :=
  ⟨rfl, rfl, rfl, rfl⟩

/-- C10 (amended): sequential dispatch isolates per-clip failures in both
dispatcher implementations: with three prompts where the provider call for
clip 2 (index 1) throws, the clip summaries come back
[queued, failed, queued] in order, the failed summary carries the caught
error message, and later clips are still submitted. Only the legacy
dispatcher (app/api/v1/replicate.py `generate_video_clips`) also writes a
QUEUED JobRecord for every successful submission before the per-clip call
returns; the `ReplicateService` dispatcher — the one `create_generation`
invokes — leaves the `ai_job:` keyspace untouched and stores only a
status-less `prediction_mapping:` entry per success. -/
theorem C10_sequential_dispatch (st : Store) (scenes : List (Option String))
    (jobs : List (String × JobRecord)) (maps : List (String × PredictionMapping))
    (submit : Nat → Except String String) (gen : String) (uuids : Nat → String)
    (now : String) (p0 p1 p2 pid0 pid2 e : String)
    (h0 : submit 0 = .ok pid0) (h1 : submit 1 = .error e) (h2 : submit 2 = .ok pid2)
    (hne : pid2 ≠ pid0) :
    (generate_video_clips st scenes submit gen uuids now [p0, p1, p2]).2.map
      (fun c => c.status) = ["queued", "failed", "queued"]
    ∧ (generate_video_clips st scenes submit gen uuids now [p0, p1, p2]).2.map
      (fun c => c.error) = [none, some e, none]
    ∧ (lookupJob (generate_video_clips st scenes submit gen uuids now [p0, p1, p2]).1.jobs
        pid0).map (fun r => r.status) = some "queued"
    ∧ (lookupJob (generate_video_clips st scenes submit gen uuids now [p0, p1, p2]).1.jobs
        pid2).map (fun r => r.status) = some "queued"
    ∧ (∀ st' : Store, ∀ prompt : String, ∀ i pid, submit i = .ok pid →
        (lookupJob (process_single_clip st' scenes submit gen prompt i (uuids i) now).1.jobs
          pid).map (fun r => r.status) = some "queued")
    ∧ (service_generate_video_clips jobs maps scenes submit gen uuids [p0, p1, p2]).2.map
      (fun c => c.status) = ["queued", "failed", "queued"]
    ∧ (service_generate_video_clips jobs maps scenes submit gen uuids [p0, p1, p2]).2.map
      (fun c => c.error) = [none, some e, none]
    ∧ (service_generate_video_clips jobs maps scenes submit gen uuids [p0, p1, p2]).1.1 = jobs
    ∧ (lookupMapping (service_generate_video_clips jobs maps scenes submit gen uuids
        [p0, p1, p2]).1.2 pid0).map (fun m => m.generation_id) = some gen := by
  refine ⟨?_, ?_, ?_, ?_, ?_, ?_, ?_, ?_, ?_⟩
  · simp [generate_video_clips, generate_video_clips_seq, process_single_clip, h0, h1, h2]
  · simp [generate_video_clips, generate_video_clips_seq, process_single_clip, h0, h1, h2]
  · simp [generate_video_clips, generate_video_clips_seq, process_single_clip, h0, h1, h2,
      lookupJob_setJob_ne _ _ _ _ (Ne.symm hne), lookupJob_setJob_self, dispatchJobRecord]
  · simp [generate_video_clips, generate_video_clips_seq, process_single_clip, h0, h1, h2,
      lookupJob_setJob_self, dispatchJobRecord]
  · intro st' prompt i pid hok
    simp [process_single_clip, hok, lookupJob_setJob_self, dispatchJobRecord]
  · simp [service_generate_video_clips, service_generate_video_clips_seq,
      service_process_single_clip, h0, h1, h2]
  · simp [service_generate_video_clips, service_generate_video_clips_seq,
      service_process_single_clip, h0, h1, h2]
  · simp [service_generate_video_clips, service_generate_video_clips_seq,
      service_process_single_clip, h0, h1, h2]
  · simp [service_generate_video_clips, service_generate_video_clips_seq,
      service_process_single_clip, h0, h1, h2,
      lookupMapping_setMapping_ne _ _ _ _ (Ne.symm hne), lookupMapping_setMapping_self]

/-- C10 (witness for the amended theorem): concrete run with three prompts
where submission 1 throws "boom", through both dispatchers. -/
theorem C10_sequential_witness :
    (generate_video_clips emptyStore [] submitW "g" (fun i => "u" ++ toString i) "t"
      ["a", "b", "c"]).2.map (fun c => c.status) = ["queued", "failed", "queued"]
    ∧ (generate_video_clips emptyStore [] submitW "g" (fun i => "u" ++ toString i) "t"
      ["a", "b", "c"]).2.map (fun c => c.error) = [none, some "boom", none]
    ∧ (lookupJob (generate_video_clips emptyStore [] submitW "g" (fun i => "u" ++ toString i)
        "t" ["a", "b", "c"]).1.jobs "pred0").map (fun r => r.status) = some "queued"
    ∧ (service_generate_video_clips [] [] [] submitW "g" (fun i => "u" ++ toString i)
      ["a", "b", "c"]).2.map (fun c => c.status) = ["queued", "failed", "queued"]
    ∧ (service_generate_video_clips [] [] [] submitW "g" (fun i => "u" ++ toString i)
        ["a", "b", "c"]).1.1 = [] := by
  have h := C10_sequential_dispatch emptyStore [] [] [] submitW "g"
    (fun i => "u" ++ toString i) "t" "a" "b" "c" "pred0" "pred2" "boom" rfl rfl rfl (by decide)
  exact ⟨h.1, h.2.1, h.2.2.1, h.2.2.2.2.2.1, h.2.2.2.2.2.2.2.1⟩
